import Mathlib

/-!
# Verification of `pydagmc/dagnav.py`

A shallow embedding of the entity-set navigation layer of pydagmc.  The
mesh backend (PyMOAB) stores entity sets carrying sparse tags; we model a
backend state as an association list from entity-set handles to their tag
data (category, geometric dimension, name, global id) together with the
set of contained entity-set handles, plus the Model's per-kind in-use id
tables (`Model.used_ids`).

Conventions taken from the source:
* `GLOBAL_ID` is a dense integer tag with default value `0`, so a freshly
  created meshset reads id `0`.
* `GEOM_DIMENSION` reads `-1` when unset; `CATEGORY` and `NAME` read as
  absent (`none`) when unset.
* Python exceptions are modelled by `Except`: an operation returns the
  backend state as mutated up to the raise point together with either a
  result or an error, mirroring the fact that mutations made before a
  `raise` persist on the caller's `Model`.
-/

namespace PyDagmc

/-- Python `str.lower()` restricted to ASCII case, as used on group names. -/
def pyLower (s : String) : String :=
  String.mk (s.data.map Char.toLower)

/-- Python `str.strip()`: drop leading and trailing whitespace. -/
def pyStrip (s : String) : String :=
  String.mk (((s.data.dropWhile Char.isWhitespace).reverse.dropWhile Char.isWhitespace).reverse)

/-- Python `s[n:]` on strings (used as `group.name[4:]`). -/
def pyDrop (s : String) (n : ℕ) : String :=
  String.mk (s.data.drop n)

/-- Substring search on character lists: `needle` occurs contiguously. -/
def listInfixB (needle : List Char) : List Char → Bool
  | [] => needle.isEmpty
  | c :: t => needle.isPrefixOf (c :: t) || listInfixB needle t

/-- Python `needle in hay` substring test (used as `"mat:" in group.name`). -/
def pyContains (needle hay : String) : Bool :=
  listInfixB needle.data hay.data

/-- `pathlib.Path(s).suffix`: the extension (with dot) of the final path
component; empty when there is no dot or the only dot leads the name. -/
def pySuffix (s : String) : String :=
  let base := (s.data.reverse.takeWhile (fun c => c ≠ '/')).reverse
  let ext := base.reverse.takeWhile (fun c => c ≠ '.')
  if ext.length + 2 ≤ base.length then String.mk ('.' :: ext.reverse) else ""

/-- Python `max(s, default=0)` on a set of naturals. -/
def pyMax (s : Finset ℕ) : ℕ :=
  s.sup id

/-- The three concrete entity kinds (`Surface`, `Volume`, `Group`). -/
inductive Kind where
  | surface : Kind
  | volume : Kind
  | group : Kind
deriving DecidableEq

/-- Class constant `_geom_dimension` of each kind (2 / 3 / 4). -/
def reqDim : Kind → Int
  | Kind.surface => 2
  | Kind.volume => 3
  | Kind.group => 4

/-- Class constant `_category` of each kind. -/
def reqCat : Kind → String
  | Kind.surface => "Surface"
  | Kind.volume => "Volume"
  | Kind.group => "Group"

/-- Error classes raised by `_check_category_and_dimension` (the source
raises `ValueError` with distinct messages; the spec's taxonomy names them
InconsistentTag and MissingTags). -/
inductive CheckErr where
  | inconsistentDim : Int → CheckErr
  | inconsistentCat : String → CheckErr
  | missingTags : CheckErr
deriving DecidableEq

/-- `GeometrySet._check_category_and_dimension` (dagnav.py lines 319-347).
The Python body reads locals `geom_dimension` and `category` once at entry
and never refreshes them, so the later tests use the entry values even
after a repair assignment; the embedding fixes `gd`/`cat` accordingly.
Returns the final (geom_dimension, category) tag values together with the
number of repair warnings emitted. -/
def checkCategoryAndDimension (k : Kind) (gd : Int) (cat : Option String) :
    Except CheckErr (Int × Option String × ℕ) :=
  if gd ≠ -1 ∧ gd ≠ reqDim k then Except.error (CheckErr.inconsistentDim gd)
  else
    let cat1 := if gd ≠ -1 ∧ cat = none then some (reqCat k) else cat
    let w1 : ℕ := if gd ≠ -1 ∧ cat = none then 1 else 0
    match cat with
    | some c =>
        if c ≠ reqCat k then Except.error (CheckErr.inconsistentCat c)
        else
          let gd1 := if gd = -1 then reqDim k else gd
          let w2 : ℕ := if gd = -1 then 1 else 0
          Except.ok (gd1, cat1, w1 + w2)
    | none =>
        if gd = -1 then Except.error CheckErr.missingTags
        else Except.ok (gd, cat1, w1)

/-- Tag data of one backend entity set. `gid` is the dense `GLOBAL_ID`
tag (default 0); `contents` is the set of contained entity-set handles. -/
structure EntityData where
  category : Option String
  geomDim : Int
  name : Option String
  gid : ℕ
  contents : Finset ℕ
deriving DecidableEq

/-- A fresh meshset as produced by `mb.create_meshset()`: no sparse tags,
`GLOBAL_ID` at its dense default 0, no contents. -/
def blankSet : EntityData :=
  { category := none, geomDim := -1, name := none, gid := 0, contents := ∅ }

/-- The modelled state: backend entity sets (in handle-creation order,
which is also the order backend scans return) plus the `Model.used_ids`
tables. -/
structure MState where
  sets : List (ℕ × EntityData)
  nextHandle : ℕ
  usedSurface : Finset ℕ
  usedVolume : Finset ℕ
  usedGroup : Finset ℕ
deriving DecidableEq

/-- Read the tag data of a handle. -/
def lookupSet (st : MState) (h : ℕ) : Option EntityData :=
  (st.sets.find? (fun p => decide (p.1 = h))).map Prod.snd

/-- Apply `f` to the tag data stored at handle `h` (tag writes). -/
def updateSet (st : MState) (h : ℕ) (f : EntityData → EntityData) : MState :=
  { st with sets := st.sets.map (fun p => if p.1 = h then (p.1, f p.2) else p) }

/-- `mb.delete_entity h`: remove the entity set from the backend. -/
def removeSet (st : MState) (h : ℕ) : MState :=
  { st with sets := st.sets.filter (fun p => decide (p.1 ≠ h)) }

/-- `mb.create_meshset()`: allocate a fresh handle with blank tags. -/
def addMeshset (st : MState) : MState × ℕ :=
  ({ st with sets := st.sets ++ [(st.nextHandle, blankSet)],
             nextHandle := st.nextHandle + 1 }, st.nextHandle)

/-- `Model._sets_by_category 'Group'` wrapped in discovery order: the
entity sets whose category tag is `"Group"`. -/
def modelGroups (st : MState) : List (ℕ × EntityData) :=
  st.sets.filter (fun p => decide (p.2.category = some "Group"))

/-- The entity sets whose category tag is `"Surface"`. -/
def modelSurfaces (st : MState) : List (ℕ × EntityData) :=
  st.sets.filter (fun p => decide (p.2.category = some "Surface"))

/-- `Model.group_names`: the keys of the group-name index.  This models
the scan as the plain discovery list, without `groups_by_name`'s
merge-on-duplicate-name side effect; the theorems below therefore carry
hypotheses (distinct names, and all groups named where a scan can see a
freshly created unnamed set) confining them to states where the source's
scan performs no merge — outside them the source can even raise an
`AttributeError` (`None.strip()` inside `merge`) that this model does not
reproduce. -/
def groupNames (st : MState) : List (Option String) :=
  (modelGroups st).map (fun p => p.2.name)

/-- `Model.used_ids[kind]`. -/
def usedOf (st : MState) : Kind → Finset ℕ
  | Kind.surface => st.usedSurface
  | Kind.volume => st.usedVolume
  | Kind.group => st.usedGroup

/-- Replace `Model.used_ids[kind]`. -/
def setUsedOf (st : MState) (k : Kind) (u : Finset ℕ) : MState :=
  match k with
  | Kind.surface => { st with usedSurface := u }
  | Kind.volume => { st with usedVolume := u }
  | Kind.group => { st with usedGroup := u }

/-- `GeometrySet.id` getter: the dense `GLOBAL_ID` tag (default 0). -/
def getGid (st : MState) (e : ℕ) : ℕ :=
  ((lookupSet st e).map EntityData.gid).getD 0

/-- The mutation block of the id setter (dagnav.py lines 379-382):
discard the entity's current id from the in-use set, add the new id,
write the tag. -/
def assignIdWrite (st : MState) (k : Kind) (e : ℕ) (i : ℕ) : MState :=
  let st1 := setUsedOf st k (insert i ((usedOf st k).erase (getGid st e)))
  updateSet st1 e (fun d => { d with gid := i })

/-- `GeometrySet.id` setter (dagnav.py lines 371-382). `none` models the
Python call with `i is None`. -/
def GeometrySet.setId (st : MState) (k : Kind) (e : ℕ) (newId : Option ℕ) :
    MState × Except String ℕ :=
  match newId with
  | none =>
      let i := pyMax (usedOf st k) + 1
      (assignIdWrite st k e i, Except.ok i)
  | some i =>
      if i ∈ usedOf st k then
        (st, Except.error ("ID " ++ toString i ++ " is already in use in this model."))
      else
        (assignIdWrite st k e i, Except.ok i)

/-- `GeometrySet.create` (dagnav.py lines 522-532): create a meshset, set
`geom_dimension` then `category` for the kind, wrap it (the consistency
check passes since both tags were just set consistently), then assign the
id through the setter.  Returns the new handle. -/
def GeometrySet.create (st : MState) (k : Kind) (globalId : Option ℕ) :
    MState × Except String ℕ :=
  let p := addMeshset st
  let st2 := updateSet p.1 p.2 (fun d => { d with geomDim := reqDim k })
  let st3 := updateSet st2 p.2 (fun d => { d with category := some (reqCat k) })
  match GeometrySet.setId st3 k p.2 globalId with
  | (st4, Except.ok _) => (st4, Except.ok p.2)
  | (st4, Except.error e) => (st4, Except.error e)

/-- `Model.create_surface` (dagnav.py lines 283-308): the surface set is
created first; only then is the filename extension checked. The backend
`load_file` into the new set adds mesh elements, not entity sets, so it
leaves this state unchanged. -/
def Model.createSurface (st : MState) (globalId : Option ℕ) (filename : Option String) :
    MState × Except String ℕ :=
  match GeometrySet.create st Kind.surface globalId with
  | (st1, Except.error e) => (st1, Except.error e)
  | (st1, Except.ok h) =>
      match filename with
      | none => (st1, Except.ok h)
      | some f =>
          if pyLower (pySuffix f) ≠ ".stl" then
            (st1, Except.error "Only STL files are supported for surface creation.")
          else
            (st1, Except.ok h)

/-- `Group.name` setter (dagnav.py lines 707-712): reject when the
lowercased new name occurs among the current group-name index keys,
otherwise write the name tag. -/
def Group.setName (st : MState) (h : ℕ) (val : String) : MState × Except String Unit :=
  if some (pyLower val) ∈ groupNames st then
    (st, Except.error ("Group " ++ val ++ " already used in model."))
  else
    (updateSet st h (fun d => { d with name := some val }), Except.ok ())

/-- The fall-through branch of `Group.create` (dagnav.py lines 819-832):
create a meshset, set `category` then `geom_dimension`, wrap it, assign
the name through the name setter when given, then assign the id. -/
def Group.createNew (st : MState) (name : Option String) (groupId : Option ℕ) :
    MState × Except String ℕ :=
  let p := addMeshset st
  let st2 := updateSet p.1 p.2 (fun d => { d with category := some "Group" })
  let st3 := updateSet st2 p.2 (fun d => { d with geomDim := 4 })
  match name with
  | some n =>
      match Group.setName st3 p.2 n with
      | (st4, Except.ok _) =>
          match GeometrySet.setId st4 Kind.group p.2 groupId with
          | (st5, Except.ok _) => (st5, Except.ok p.2)
          | (st5, Except.error e) => (st5, Except.error e)
      | (st4, Except.error e) => (st4, Except.error e)
  | none =>
      match GeometrySet.setId st3 Kind.group p.2 groupId with
      | (st5, Except.ok _) => (st5, Except.ok p.2)
      | (st5, Except.error e) => (st5, Except.error e)

/-- `Group.create` (dagnav.py lines 809-832).  When a name is given and
its lowercasing occurs in the group-name index, the source returns
`model.groups_by_name[name]` — a dict lookup by the ORIGINAL name, which
raises `KeyError` when the original name is not itself a key.  Otherwise
it falls through to creation. -/
def Group.create (st : MState) (name : Option String) (groupId : Option ℕ) :
    MState × Except String ℕ :=
  match name with
  | some n =>
      if some (pyLower n) ∈ groupNames st then
        match (modelGroups st).find? (fun p => decide (p.2.name = some n)) with
        | some p => (st, Except.ok p.1)
        | none => (st, Except.error ("KeyError: " ++ n))
      else Group.createNew st (some n) groupId
  | none => Group.createNew st none groupId

/-- `Group.merge` (dagnav.py lines 794-807): compare the two names after
`.strip().lower()`; on match, add every entity contained in `other` to
`self`, delete `other`'s backend set, and repoint `other`'s wrapper handle
to `self`'s (the returned handle is the new value of `other.handle`). -/
def Group.merge (st : MState) (selfH otherH : ℕ) : MState × Except String ℕ :=
  match lookupSet st selfH, lookupSet st otherH with
  | some sd, some od =>
      match sd.name, od.name with
      | some sn, some om =>
          if pyLower (pyStrip sn) ≠ pyLower (pyStrip om) then
            (st, Except.error ("Group names " ++ sn ++ " and " ++ om ++ " do not match"))
          else
            let st1 := updateSet st selfH (fun d => { d with contents := d.contents ∪ od.contents })
            let st2 := removeSet st1 otherH
            (st2, Except.ok selfH)
      | _, _ => (st, Except.error "AttributeError: group has no name tag")
  | _, _ => (st, Except.error "invalid handle")

/-- `Group._get_geom_ent_sets` on a group's data: the contained
entity-set handles whose category tag equals `catName`. -/
def geomEntSets (st : MState) (gd : EntityData) (catName : String) : Finset ℕ :=
  gd.contents.filter (fun c => ((lookupSet st c).map EntityData.category).getD none = some catName)

/-- `Group.__contains__` (dagnav.py lines 695-697): the handle occurs
among the group's contained Volumes or contained Surfaces. -/
def groupContainsB (st : MState) (gd : EntityData) (h : ℕ) : Bool :=
  decide (h ∈ geomEntSets st gd "Volume") || decide (h ∈ geomEntSets st gd "Surface")

/-- `Volume.groups` (dagnav.py lines 621-624): all Model groups containing
this volume, in discovery order. -/
def Volume.groups (st : MState) (v : ℕ) : List (ℕ × EntityData) :=
  (modelGroups st).filter (fun g => groupContainsB st g.2 v)

/-- `Volume._material_group` (dagnav.py lines 626-631): the first
containing group whose name CONTAINS the substring `"mat:"` (the source
tests `"mat:" in group.name`, not a prefix test).  An unnamed group would
raise a `TypeError` in Python; the theorems below assume all groups are
named. -/
def Volume.materialGroup (st : MState) (v : ℕ) : Option (ℕ × EntityData) :=
  (Volume.groups st v).find? (fun g =>
    match g.2.name with
    | some nm => pyContains "mat:" nm
    | none => false)

/-- `Volume.material` (dagnav.py lines 633-639): `group.name[4:]` of the
material group, else `None`. -/
def Volume.material (st : MState) (v : ℕ) : Option String :=
  (Volume.materialGroup st v).map (fun g => pyDrop ((g.2.name).getD "") 4)

/-- A coordinate row (xyz triple).  The source holds IEEE doubles; only
exact value equality matters for deduplication, so components are
modelled over ℤ. -/
structure Row where
  x : ℤ
  y : ℤ
  z : ℤ
deriving DecidableEq

/-- Lexicographic row order used by `np.unique(..., axis=0)`'s sort. -/
def rowLe (a b : Row) : Prop :=
  a.x < b.x ∨ (a.x = b.x ∧ (a.y < b.y ∨ (a.y = b.y ∧ a.z ≤ b.z)))

instance : DecidableRel rowLe := fun a b => by
  unfold rowLe
  exact inferInstance

/-- `np.unique(rows, axis=0, return_inverse=True)`: the sorted
deduplicated rows together with, for each input row, its index in the
deduplicated array. -/
def npUnique (rows : List Row) : List Row × List ℕ :=
  let u := (List.insertionSort rowLe rows).dedup
  (u, rows.map (fun r => u.indexOf r))

/-- `GeometrySet.get_triangle_conn_and_coords` (dagnav.py lines 452-483),
flattened: `connHandles` is the triangle connectivity (3 vertex handles
per triangle, so entry `3*i+j` is vertex slot `j` of triangle `i`) and
`getCoords` is the backend's vertex-handle → xyz lookup.  Returns the
(flattened) index array and the coordinate rows. -/
def getTriangleConnAndCoords (getCoords : ℕ → Row) (connHandles : List ℕ)
    (compress : Bool) : List ℕ × List Row :=
  if compress then
    let rows := connHandles.map getCoords
    let u := npUnique rows
    (u.2, u.1)
  else
    let coords := connHandles.map getCoords
    (List.range coords.length, coords)

/-- One step of the id-allocator history for a single kind
(`Model.used_ids[kind]`): an auto-id creation or an entity deletion. -/
inductive AllocOp where
  | createAuto : AllocOp
  | deleteId : ℕ → AllocOp
deriving DecidableEq

/-- Effect of the operations on the in-use id set, read off the source:
`createAuto` is `GeometrySet.create` with `global_id=None` — the setter
computes `max(used, default=0) + 1`, discards the fresh entity's current
id (the dense default 0), and adds the new id; `deleteId i` is
`GeometrySet.delete` of an entity whose id is `i` — `used.discard(i)`.
Returns the final set and the ids assigned by the creations, in order. -/
def runAlloc (s : Finset ℕ) : List AllocOp → Finset ℕ × List ℕ
  | [] => (s, [])
  | AllocOp.createAuto :: ops =>
      let i := pyMax s + 1
      let r := runAlloc (insert i (s.erase 0)) ops
      (r.1, i :: r.2)
  | AllocOp.deleteId i :: ops => runAlloc (s.erase i) ops

/-- The history's deletions only free ids strictly below the current
maximum (the situation described by the claim). -/
def validTrace (s : Finset ℕ) : List AllocOp → Bool
  | [] => true
  | AllocOp.createAuto :: ops => validTrace (insert (pyMax s + 1) (s.erase 0)) ops
  | AllocOp.deleteId i :: ops => decide (i < pyMax s) && validTrace (s.erase i) ops

/-- Concrete model for C4's witness: one volume with id 5 in use. -/
def stC4 : MState :=
  { sets := [(1, { category := some "Volume", geomDim := 3, name := none,
                   gid := 5, contents := ∅ })],
    nextHandle := 2, usedSurface := ∅, usedVolume := {5}, usedGroup := ∅ }

/-- Concrete model for C10's witness: one volume with id 7 in use. -/
def stC10 : MState :=
  { sets := [(3, { category := some "Volume", geomDim := 3, name := none,
                   gid := 7, contents := ∅ })],
    nextHandle := 4, usedSurface := ∅, usedVolume := {7}, usedGroup := ∅ }

/-- Concrete allocator history for C3's witness: two auto-creations, a
deletion of id 1 (below the maximum 2), then another auto-creation. -/
def opsC3 : List AllocOp :=
  [AllocOp.createAuto, AllocOp.createAuto, AllocOp.deleteId 1, AllocOp.createAuto]

/-- Concrete model for C7: two groups whose names agree after trimming
whitespace and lowering ASCII case. -/
def stC7 : MState :=
  { sets := [(1, { category := some "Group", geomDim := 4, name := some " Mat:Fuel",
                   gid := 1, contents := {10} }),
             (2, { category := some "Group", geomDim := 4, name := some "mat:fuel  ",
                   gid := 2, contents := {11} })],
    nextHandle := 3, usedSurface := ∅, usedVolume := ∅, usedGroup := {1, 2} }

/-- Concrete model for C1: one group named `"Foo"` with id 1. -/
def stC1 : MState :=
  { sets := [(1, { category := some "Group", geomDim := 4, name := some "Foo",
                   gid := 1, contents := ∅ })],
    nextHandle := 2, usedSurface := ∅, usedVolume := ∅, usedGroup := {1} }

/-- Concrete model for C2: volume 2 contained in a group named
`"xmat:fuel"` — the name contains `"mat:"` but does not start with it. -/
def stC2 : MState :=
  { sets := [(1, { category := some "Group", geomDim := 4, name := some "xmat:fuel",
                   gid := 1, contents := {2} }),
             (2, { category := some "Volume", geomDim := 3, name := none,
                   gid := 1, contents := ∅ })],
    nextHandle := 3, usedSurface := ∅, usedVolume := {1}, usedGroup := {1} }

/-- Concrete model for C5: groups `"Foo"` (id 1) and `"bar"` (id 2). -/
def stC5 : MState :=
  { sets := [(1, { category := some "Group", geomDim := 4, name := some "Foo",
                   gid := 1, contents := ∅ }),
             (2, { category := some "Group", geomDim := 4, name := some "bar",
                   gid := 2, contents := ∅ })],
    nextHandle := 3, usedSurface := ∅, usedVolume := ∅, usedGroup := {1, 2} }

/-- Concrete model for C8: an empty model. -/
def stC8 : MState :=
  { sets := [], nextHandle := 1, usedSurface := ∅, usedVolume := ∅, usedGroup := ∅ }

/-- C1 counterexample: the group-name index of `stC1` contains `"Foo"`,
equal to the requested name (in particular equal up to ASCII case), yet
`Group.create` does NOT return the existing group (handle 1): it
allocates a new entity set, returning the fresh handle 2, and the backend
afterwards holds two group sets.  The source's test `name.lower() in
group_names` compares the lowercased request against the verbatim names,
so `"foo" ∈ ["Foo"]` fails and the call falls through to creation. -/
theorem group_create_case_counterexample :
    groupNames stC1 = [some "Foo"] ∧
    (Group.create stC1 (some "Foo") none).2 = Except.ok 2 ∧
    lookupSet stC1 2 = none ∧
    ((Group.create stC1 (some "Foo") none).1.sets.length = 2 ∧
      (modelGroups (Group.create stC1 (some "Foo") none).1).length = 2) := by
  refine ⟨rfl, rfl, rfl, rfl, rfl⟩

/-- C2 counterexample: the only group containing volume 2 is named
`"xmat:fuel"`, whose first four characters are `"xmat"`, not `"mat:"` —
so by the claim `material` should be `None` — yet the source's substring
test makes it the material group and returns `name[4:] = ":fuel"`. -/
theorem volume_material_substring_counterexample :
    (Volume.groups stC2 2).map (fun g => g.2.name) = [some "xmat:fuel"] ∧
    String.take "xmat:fuel" 4 = "xmat" ∧
    Volume.material stC2 2 = some ":fuel" := by
  refine ⟨rfl, rfl, rfl⟩

/-- C5 counterexample: model `stC5` has a group named `"Foo"`; renaming
group 2 to `"foo"` — a name equal to `"Foo"` up to ASCII case — must fail
by the claim, but the source setter only rejects when the lowercased new
name occurs verbatim, so the write succeeds. -/
theorem group_rename_case_counterexample :
    pyLower "Foo" = pyLower "foo" ∧
    (Group.setName stC5 2 "foo").2 = Except.ok () ∧
    lookupSet (Group.setName stC5 2 "foo").1 2 =
      some { category := some "Group", geomDim := 4, name := some "foo",
             gid := 2, contents := ∅ } := by
  refine ⟨rfl, rfl, rfl⟩

/-- C8 counterexample: `create_surface` on an empty model with a `.step`
filename raises the validation error, but the surface entity set was
already created (the backend holds one surface set afterwards) and its id
1 was recorded in the per-Surface in-use set — the claim's "no backend
mutation before the failure" is false. -/
theorem create_surface_mutates_before_validation_counterexample :
    (Model.createSurface stC8 none (some "my_model.step")).2 =
      Except.error "Only STL files are supported for surface creation." ∧
    (Model.createSurface stC8 none (some "my_model.step")).1.sets.length = 1 ∧
    (modelSurfaces (Model.createSurface stC8 none (some "my_model.step")).1).length = 1 ∧
    (Model.createSurface stC8 none (some "my_model.step")).1.usedSurface = {1} := by
  refine ⟨rfl, rfl, rfl, rfl⟩

/-! ## Helper lemmas -/

theorem pyMax_mem {s : Finset ℕ} (h : s.Nonempty) : pyMax s ∈ s := by
  obtain ⟨i, hi, he⟩ := Finset.exists_mem_eq_sup s h id
  rw [pyMax, he]
  exact hi

theorem le_pyMax {s : Finset ℕ} {a : ℕ} (h : a ∈ s) : a ≤ pyMax s :=
  Finset.le_sup (f := id) h


theorem pyMax_erase_of_lt {s : Finset ℕ} {i : ℕ} (h : i < pyMax s) :
    pyMax (s.erase i) = pyMax s := by
  apply le_antisymm
  · exact Finset.sup_mono (Finset.erase_subset _ _)
  · have hne : s.Nonempty := by
      rcases Finset.eq_empty_or_nonempty s with he | hne
      · rw [he] at h
        simp [pyMax] at h
      · exact hne
    exact le_pyMax (Finset.mem_erase.mpr ⟨ne_of_gt h, pyMax_mem hne⟩)

theorem pyMax_insert (a : ℕ) (s : Finset ℕ) : pyMax (insert a s) = max a (pyMax s) := by
  simp [pyMax, Finset.sup_insert]

theorem find?_map_update (l : List (ℕ × EntityData)) (h : ℕ) (f : EntityData → EntityData) :
    (l.map (fun p => if p.1 = h then (p.1, f p.2) else p)).find? (fun p => decide (p.1 = h)) =
      (l.find? (fun p => decide (p.1 = h))).map (fun p => (p.1, f p.2)) := by
  induction l with
  | nil => simp
  | cons a l ih =>
    by_cases ha : a.1 = h
    · simp [List.find?_cons, ha]
    · simp [List.find?_cons, ha, ih]

theorem find?_map_update_ne (l : List (ℕ × EntityData)) (h h' : ℕ) (hne : h' ≠ h)
    (f : EntityData → EntityData) :
    (l.map (fun p => if p.1 = h then (p.1, f p.2) else p)).find? (fun p => decide (p.1 = h')) =
      l.find? (fun p => decide (p.1 = h')) := by
  have hne2 : ¬ h = h' := fun hc => hne hc.symm
  induction l with
  | nil => simp
  | cons a l ih =>
    by_cases ha : a.1 = h
    · simp [List.find?_cons, ha, hne2, ih]
    · by_cases hb : a.1 = h'
      · simp [List.find?_cons, ha, hb, hne, ih]
      · simp [List.find?_cons, ha, hb, ih]

theorem lookupSet_updateSet_self (st : MState) (h : ℕ) (f : EntityData → EntityData) :
    lookupSet (updateSet st h f) h = (lookupSet st h).map f := by
  unfold lookupSet updateSet
  rw [find?_map_update]
  cases st.sets.find? (fun p => decide (p.1 = h)) <;> rfl

theorem lookupSet_updateSet_ne (st : MState) {h h' : ℕ} (hne : h' ≠ h)
    (f : EntityData → EntityData) :
    lookupSet (updateSet st h f) h' = lookupSet st h' := by
  unfold lookupSet updateSet
  rw [find?_map_update_ne _ _ _ hne]

theorem lookupSet_removeSet_self (st : MState) (h : ℕ) :
    lookupSet (removeSet st h) h = none := by
  unfold lookupSet removeSet
  have : (st.sets.filter (fun p => decide (p.1 ≠ h))).find? (fun p => decide (p.1 = h)) = none := by
    apply List.find?_eq_none.mpr
    intro p hp
    have := (List.mem_filter.mp hp).2
    simpa using this
  rw [this]
  rfl

theorem find?_filter_ne (l : List (ℕ × EntityData)) (h h' : ℕ) (hne : h' ≠ h) :
    (l.filter (fun p => decide (p.1 ≠ h))).find? (fun p => decide (p.1 = h')) =
      l.find? (fun p => decide (p.1 = h')) := by
  have hne2 : ¬ h = h' := fun hc => hne hc.symm
  induction l with
  | nil => rfl
  | cons a l ih =>
    by_cases ha : a.1 = h
    · simp only [List.filter_cons, List.find?_cons, ha, hne2]
      simpa using ih
    · by_cases hb : a.1 = h'
      · simp [List.filter_cons, List.find?_cons, ha, hb, hne]
      · simp only [List.filter_cons, List.find?_cons, ha, hb]
        simpa [ha, hb] using ih

theorem lookupSet_removeSet_ne (st : MState) {h h' : ℕ} (hne : h' ≠ h) :
    lookupSet (removeSet st h) h' = lookupSet st h' := by
  unfold lookupSet removeSet
  rw [find?_filter_ne _ _ _ hne]

/-! ## Claim theorems -/

/-- C6: the wrap-time consistency check.  If `geom_dimension` is set
(≠ -1) and differs from the kind's required dimension, or `category` is
set and differs from the kind's required category, the check fails with
an InconsistentTag-class error (dimension checked first); if exactly one
of the two is set and consistent, the missing one is auto-assigned from
it with one recoverable warning and the check succeeds; if both are
unset, the check fails with the MissingTags-class error — for every
kind. -/
theorem check_category_and_dimension_spec (k : Kind) (gd : Int) (cat : Option String) :
    (gd ≠ -1 → gd ≠ reqDim k →
      checkCategoryAndDimension k gd cat = Except.error (CheckErr.inconsistentDim gd)) ∧
    (∀ c, cat = some c → c ≠ reqCat k → (gd = -1 ∨ gd = reqDim k) →
      checkCategoryAndDimension k gd cat = Except.error (CheckErr.inconsistentCat c)) ∧
    (gd = reqDim k → cat = none →
      checkCategoryAndDimension k gd cat = Except.ok (gd, some (reqCat k), 1)) ∧
    (gd = -1 → cat = some (reqCat k) →
      checkCategoryAndDimension k gd cat = Except.ok (reqDim k, cat, 1)) ∧
    (gd = -1 → cat = none →
      checkCategoryAndDimension k gd cat = Except.error CheckErr.missingTags) ∧
    (gd = reqDim k → cat = some (reqCat k) →
      checkCategoryAndDimension k gd cat = Except.ok (gd, cat, 0)) := by
  refine ⟨?_, ?_, ?_, ?_, ?_, ?_⟩
  · intro h1 h2
    simp [checkCategoryAndDimension, h1, h2]
  · intro c hc hne hgd
    rcases hgd with h | h <;> subst h <;> subst hc <;>
      cases k <;> simp [checkCategoryAndDimension, reqDim, reqCat] at hne ⊢ <;> simp [hne]
  · intro h1 h2
    subst h1; subst h2
    cases k <;> simp [checkCategoryAndDimension, reqDim, reqCat]
  · intro h1 h2
    subst h1; subst h2
    cases k <;> simp [checkCategoryAndDimension, reqDim, reqCat]
  · intro h1 h2
    subst h1; subst h2
    cases k <;> simp [checkCategoryAndDimension, reqDim, reqCat]
  · intro h1 h2
    subst h1; subst h2
    cases k <;> simp [checkCategoryAndDimension, reqDim, reqCat]

/-- C6 witness: a Group-kind entity set with only `geom_dimension = 4`
set gets its category auto-assigned with one warning. -/
theorem check_category_and_dimension_spec_w :
    checkCategoryAndDimension Kind.group 4 none = Except.ok (4, some "Group", 1) :=
  (check_category_and_dimension_spec Kind.group 4 none).2.2.1 rfl rfl

/-- C4: assigning an explicit id already present in the kind's in-use set
to an entity raises the DuplicateIdentifier-class error before any
mutation: the whole model state — in particular both entities' id tags
and the in-use set — is unchanged. -/
theorem duplicate_id_assignment_rejected (st : MState) (k : Kind) (e1 e2 : ℕ) (i : ℕ)
    (_hne : e1 ≠ e2) (hi : i ∈ usedOf st k) :
    (GeometrySet.setId st k e1 (some i)).1 = st ∧
    (GeometrySet.setId st k e1 (some i)).2 =
      Except.error ("ID " ++ toString i ++ " is already in use in this model.") ∧
    lookupSet (GeometrySet.setId st k e1 (some i)).1 e1 = lookupSet st e1 ∧
    lookupSet (GeometrySet.setId st k e1 (some i)).1 e2 = lookupSet st e2 ∧
    usedOf (GeometrySet.setId st k e1 (some i)).1 k = usedOf st k := by
  simp [GeometrySet.setId, hi]

/-- C4 witness at a concrete model: id 5 is in use for Volume, so the
assignment to a different entity fails and the state is untouched. -/
theorem duplicate_id_assignment_rejected_w :
    (GeometrySet.setId stC4 Kind.volume 2 (some 5)).1 = stC4 :=
  (duplicate_id_assignment_rejected stC4 Kind.volume 2 1 5 (by decide) (by decide)).1

/-- C10: re-assigning an entity's own current id (recorded in the in-use
set) raises the duplicate-identifier error — the setter does not treat it
as a no-op — and leaves the id tag and the allocator unchanged. -/
theorem reassign_own_id_raises (st : MState) (k : Kind) (e : ℕ)
    (h : getGid st e ∈ usedOf st k) :
    (GeometrySet.setId st k e (some (getGid st e))).1 = st ∧
    (GeometrySet.setId st k e (some (getGid st e))).2 =
      Except.error ("ID " ++ toString (getGid st e) ++ " is already in use in this model.") := by
  simp [GeometrySet.setId, h]

/-- C10 witness: entity 3 holds id 7, and re-assigning 7 to it fails with
the state unchanged. -/
theorem reassign_own_id_raises_w :
    (GeometrySet.setId stC10 Kind.volume 3 (some (getGid stC10 3))).1 = stC10 :=
  (reassign_own_id_raises stC10 Kind.volume 3 (by decide)).1

theorem runAlloc_append (s : Finset ℕ) (l1 l2 : List AllocOp) :
    runAlloc s (l1 ++ l2) =
      ((runAlloc (runAlloc s l1).1 l2).1,
        (runAlloc s l1).2 ++ (runAlloc (runAlloc s l1).1 l2).2) := by
  induction l1 generalizing s with
  | nil => simp [runAlloc]
  | cons op l1 ih => cases op <;> simp [runAlloc, ih]

theorem runAlloc_strict (ops : List AllocOp) :
    ∀ s : Finset ℕ, validTrace s ops = true →
      List.Chain' (· < ·) (runAlloc s ops).2 ∧
      ∀ x ∈ (runAlloc s ops).2, pyMax s < x := by
  induction ops with
  | nil =>
    intro s _
    simp [runAlloc]
  | cons op ops ih =>
    intro s h
    cases op with
    | createAuto =>
      have h' : validTrace (insert (pyMax s + 1) (s.erase 0)) ops = true := by
        simpa [validTrace] using h
      obtain ⟨hc, hgt⟩ := ih _ h'
      have hsub : pyMax (s.erase 0) ≤ pyMax s :=
        Finset.sup_mono (Finset.erase_subset _ _)
      have hmax : pyMax (insert (pyMax s + 1) (s.erase 0)) = pyMax s + 1 := by
        rw [pyMax_insert]; omega
      have hgt' : ∀ x ∈ (runAlloc (insert (pyMax s + 1) (s.erase 0)) ops).2,
          pyMax s + 1 < x := by
        intro x hx
        have := hgt x hx
        omega
      constructor
      · show List.Chain' (· < ·)
          ((pyMax s + 1) :: (runAlloc (insert (pyMax s + 1) (s.erase 0)) ops).2)
        rcases hl : (runAlloc (insert (pyMax s + 1) (s.erase 0)) ops).2 with _ | ⟨y, ys⟩
        · simp
        · rw [List.chain'_cons]
          refine ⟨hgt' y (by rw [hl]; exact List.mem_cons_self _ _), ?_⟩
          rw [← hl]
          exact hc
      · intro x hx
        have hx' : x = pyMax s + 1 ∨
            x ∈ (runAlloc (insert (pyMax s + 1) (s.erase 0)) ops).2 := by
          simpa [runAlloc] using hx
        rcases hx' with rfl | hx'
        · omega
        · have := hgt' x hx'
          omega
    | deleteId i =>
      have h1 : i < pyMax s ∧ validTrace (s.erase i) ops = true := by
        simpa [validTrace] using h
      obtain ⟨hc, hgt⟩ := ih _ h1.2
      have hmax := pyMax_erase_of_lt h1.1
      refine ⟨hc, ?_⟩
      intro x hx
      have := hgt x hx
      omega

/-- C3: over any allocator history of auto-id creations and deletions in
which every deletion frees an id strictly below the current per-kind
maximum, the sequence of auto-assigned ids is strictly increasing; and
appending one more auto-creation to any such history assigns exactly the
current maximum plus one. -/
theorem auto_id_allocation_monotone (s : Finset ℕ) (ops : List AllocOp)
    (h : validTrace s ops = true) :
    List.Chain' (· < ·) (runAlloc s ops).2 ∧
    (runAlloc s (ops ++ [AllocOp.createAuto])).2 =
      (runAlloc s ops).2 ++ [pyMax (runAlloc s ops).1 + 1] := by
  refine ⟨(runAlloc_strict ops s h).1, ?_⟩
  rw [runAlloc_append]
  simp [runAlloc]

/-- C3 witness: create ids 1 and 2, delete 1 (below the maximum 2), then
auto-create again — the created ids 1, 2, 3 are strictly increasing. -/
theorem auto_id_allocation_monotone_w :
    List.Chain' (· < ·) (runAlloc ∅ opsC3).2 :=
  (auto_id_allocation_monotone ∅ opsC3 (by decide)).1

/-- C7: `Group.merge`.  When the case-insensitive, whitespace-trimmed
names differ the call fails with the name-mismatch error and the state is
unchanged; otherwise every entity set contained in `other` is added to
`self`'s contents, `other`'s backend set is deleted, the other wrapper's
handle is repointed to `self`'s handle (the returned handle), so reads
through the other wrapper see the surviving group's merged data; all
unrelated sets are untouched. -/
theorem group_merge_spec (st : MState) (selfH otherH : ℕ) {sd od : EntityData}
    (hs : lookupSet st selfH = some sd) (ho : lookupSet st otherH = some od)
    {sn om : String} (hsn : sd.name = some sn) (hom : od.name = some om)
    (hne : selfH ≠ otherH) :
    (pyLower (pyStrip sn) ≠ pyLower (pyStrip om) →
      Group.merge st selfH otherH =
        (st, Except.error ("Group names " ++ sn ++ " and " ++ om ++ " do not match"))) ∧
    (pyLower (pyStrip sn) = pyLower (pyStrip om) →
      (Group.merge st selfH otherH).2 = Except.ok selfH ∧
      lookupSet (Group.merge st selfH otherH).1 otherH = none ∧
      lookupSet (Group.merge st selfH otherH).1 selfH =
        some { sd with contents := sd.contents ∪ od.contents } ∧
      (∀ h', h' ≠ selfH → h' ≠ otherH →
        lookupSet (Group.merge st selfH otherH).1 h' = lookupSet st h')) := by
  constructor
  · intro hdiff
    simp [Group.merge, hs, ho, hsn, hom, hdiff]
  · intro heq
    have hmerge : Group.merge st selfH otherH =
        (removeSet (updateSet st selfH
            (fun d => { d with contents := d.contents ∪ od.contents })) otherH,
          Except.ok selfH) := by
      simp [Group.merge, hs, ho, hsn, hom, heq]
    refine ⟨by rw [hmerge], ?_, ?_, ?_⟩
    · rw [hmerge]
      exact lookupSet_removeSet_self _ _
    · rw [hmerge]
      have h1 := lookupSet_removeSet_ne
        (updateSet st selfH (fun d => { d with contents := d.contents ∪ od.contents })) hne
      rw [h1, lookupSet_updateSet_self, hs]
      rfl
    · intro h' hne1 hne2
      rw [hmerge]
      rw [lookupSet_removeSet_ne _ hne2, lookupSet_updateSet_ne _ hne1]

/-- C7 witness: merging the two groups of `stC7`, whose names `" Mat:Fuel"`
and `"mat:fuel  "` agree after trimming and lowering, succeeds and returns
the surviving handle 1. -/
theorem group_merge_spec_w :
    (Group.merge stC7 1 2).2 = Except.ok 1 :=
  ((group_merge_spec stC7 1 2 rfl rfl rfl rfl (by decide)).2 (by decide)).1

/-- C9: for every backend coordinate lookup and triangle connectivity,
the compressed and uncompressed results of
`get_triangle_conn_and_coords` are extensionally equal: indexing each
coordinate array through its own connectivity entry for vertex slot `j`
of triangle `i` yields the same xyz row; and in the uncompressed case the
connectivity is exactly `arange(3N)` (reshaped to `(N,3)` in the source —
here the flat index is `3*i+j`). -/
theorem triangle_conn_coords_compress_equiv (getCoords : ℕ → Row) (connHandles : List ℕ)
    (i j : ℕ) (_hj : j < 3) (hk : 3 * i + j < connHandles.length) :
    (getTriangleConnAndCoords getCoords connHandles false).1 =
      List.range connHandles.length ∧
    (getTriangleConnAndCoords getCoords connHandles true).2.getD
        ((getTriangleConnAndCoords getCoords connHandles true).1.getD (3 * i + j) 0)
        ⟨0, 0, 0⟩ =
      (getTriangleConnAndCoords getCoords connHandles false).2.getD
        ((getTriangleConnAndCoords getCoords connHandles false).1.getD (3 * i + j) 0)
        ⟨0, 0, 0⟩ := by
  have hkr : 3 * i + j < (connHandles.map getCoords).length := by
    rw [List.length_map]; exact hk
  constructor
  · simp [getTriangleConnAndCoords]
  · -- the uncompressed side picks row `3*i+j` of the raw coordinate list
    have hidxf : (List.range (connHandles.map getCoords).length).getD (3 * i + j) 0 =
        3 * i + j := by
      rw [List.getD_eq_getElem _ _ (by simpa using hkr)]
      exact List.getElem_range _ _
    have hfalse :
        (getTriangleConnAndCoords getCoords connHandles false).2.getD
            ((getTriangleConnAndCoords getCoords connHandles false).1.getD (3 * i + j) 0)
            ⟨0, 0, 0⟩ =
          (connHandles.map getCoords)[3 * i + j] := by
      show (connHandles.map getCoords).getD
          ((List.range (connHandles.map getCoords).length).getD (3 * i + j) 0) ⟨0, 0, 0⟩ =
        (connHandles.map getCoords)[3 * i + j]
      rw [hidxf]
      exact List.getD_eq_getElem _ _ hkr
    -- the compressed side looks the same row up in the deduplicated array
    have hmem : (connHandles.map getCoords)[3 * i + j] ∈
        (List.insertionSort rowLe (connHandles.map getCoords)).dedup := by
      rw [List.mem_dedup]
      exact ((List.perm_insertionSort rowLe (connHandles.map getCoords)).mem_iff).mpr
        (List.getElem_mem hkr)
    have hlt : ((List.insertionSort rowLe (connHandles.map getCoords)).dedup).indexOf
        ((connHandles.map getCoords)[3 * i + j]) <
        ((List.insertionSort rowLe (connHandles.map getCoords)).dedup).length :=
      List.indexOf_lt_length.mpr hmem
    have hidxt : ((connHandles.map getCoords).map (fun r =>
        ((List.insertionSort rowLe (connHandles.map getCoords)).dedup).indexOf r)).getD
          (3 * i + j) 0 =
        ((List.insertionSort rowLe (connHandles.map getCoords)).dedup).indexOf
          ((connHandles.map getCoords)[3 * i + j]) := by
      rw [List.getD_eq_getElem _ _ (by simpa using hkr)]
      exact List.getElem_map _
    have htrue :
        (getTriangleConnAndCoords getCoords connHandles true).2.getD
            ((getTriangleConnAndCoords getCoords connHandles true).1.getD (3 * i + j) 0)
            ⟨0, 0, 0⟩ =
          (connHandles.map getCoords)[3 * i + j] := by
      show ((List.insertionSort rowLe (connHandles.map getCoords)).dedup).getD
          (((connHandles.map getCoords).map (fun r =>
            ((List.insertionSort rowLe (connHandles.map getCoords)).dedup).indexOf r)).getD
              (3 * i + j) 0) ⟨0, 0, 0⟩ =
        (connHandles.map getCoords)[3 * i + j]
      rw [hidxt, List.getD_eq_getElem _ _ hlt]
      exact List.getElem_indexOf hlt
    rw [htrue, hfalse]

/-- C9 witness: a concrete connectivity of two triangles over a lookup
with repeated coordinates; the compressed and flat indexings agree at
triangle 1, vertex slot 2. -/
theorem triangle_conn_coords_compress_equiv_w :
    (getTriangleConnAndCoords (fun h => ⟨(h : ℤ) % 2, 0, 0⟩) [0, 1, 2, 3, 4, 5] true).2.getD
        ((getTriangleConnAndCoords (fun h => ⟨(h : ℤ) % 2, 0, 0⟩) [0, 1, 2, 3, 4, 5] true).1.getD
          (3 * 1 + 2) 0) ⟨0, 0, 0⟩ =
      (getTriangleConnAndCoords (fun h => ⟨(h : ℤ) % 2, 0, 0⟩) [0, 1, 2, 3, 4, 5] false).2.getD
        ((getTriangleConnAndCoords (fun h => ⟨(h : ℤ) % 2, 0, 0⟩) [0, 1, 2, 3, 4, 5] false).1.getD
          (3 * 1 + 2) 0) ⟨0, 0, 0⟩ :=
  (triangle_conn_coords_compress_equiv (fun h => ⟨(h : ℤ) % 2, 0, 0⟩) [0, 1, 2, 3, 4, 5]
    1 2 (by decide) (by decide)).2

/-- C5 (amended): the rename raises the naming-collision error exactly
when the ASCII-lowercased new name occurs verbatim among the currently
discoverable group names, and writes the name tag otherwise; renaming to
a name differing only in letter case from an existing group's name is
therefore rejected only when that existing name equals the lowercased new
name.  (The no-duplicate-names hypothesis keeps the scan that computes
`group_names` free of the source's duplicate-merging side effects.) -/
theorem group_set_name_spec (st : MState) (h : ℕ) (v : String)
    (_hnodup : (groupNames st).Nodup) :
    ((∃ p ∈ modelGroups st, p.2.name = some (pyLower v)) →
      Group.setName st h v =
        (st, Except.error ("Group " ++ v ++ " already used in model."))) ∧
    ((∀ p ∈ modelGroups st, p.2.name ≠ some (pyLower v)) →
      Group.setName st h v =
        (updateSet st h (fun d => { d with name := some v }), Except.ok ())) := by
  constructor
  · rintro ⟨p, hp, hname⟩
    have hmem : some (pyLower v) ∈ groupNames st :=
      List.mem_map.mpr ⟨p, hp, hname⟩
    simp [Group.setName, hmem]
  · intro hall
    have hmem : some (pyLower v) ∉ groupNames st := by
      intro hc
      obtain ⟨p, hp, he⟩ := List.mem_map.mp hc
      exact hall p hp he
    simp [Group.setName, hmem]

/-- C5 witness: renaming group 2 of `stC5` to the unused name `"zap"`
writes the tag. -/
theorem group_set_name_spec_w :
    Group.setName stC5 2 "zap" =
      (updateSet stC5 2 (fun d => { d with name := some "zap" }), Except.ok ()) :=
  (group_set_name_spec stC5 2 "zap" (by decide)).2 (by decide)

/-- C2 (amended): a volume's material group is the FIRST containing group
whose name CONTAINS `"mat:"` as a substring (not necessarily as a
prefix); `material` is that group's name with its first four characters
dropped, and is `None` exactly when no containing group's name contains
`"mat:"` anywhere. -/
theorem volume_material_spec (st : MState) (v : ℕ)
    (hnames : ∀ g ∈ modelGroups st, g.2.name ≠ none)
    (_hnodup : (groupNames st).Nodup) :
    (Volume.material st v = none ↔
      ∀ g ∈ Volume.groups st v, ∀ nm, g.2.name = some nm →
        pyContains "mat:" nm = false) ∧
    (∀ g nm, Volume.materialGroup st v = some g → g.2.name = some nm →
      Volume.material st v = some (pyDrop nm 4) ∧
      pyContains "mat:" nm = true ∧ g ∈ Volume.groups st v) := by
  constructor
  · rw [Volume.material, Option.map_eq_none', Volume.materialGroup, List.find?_eq_none]
    constructor
    · intro hnone g hg nm hnm
      have := hnone g hg
      simpa [hnm] using this
    · intro hall g hg
      have hsub : g ∈ modelGroups st := List.mem_of_mem_filter hg
      cases hname : g.2.name with
      | none => exact absurd hname (hnames g hsub)
      | some nm => simpa [hname] using hall g hg nm hname
  · intro g nm hfind hname
    have hmemg : g ∈ Volume.groups st v := List.mem_of_find?_eq_some hfind
    have hpred := List.find?_some hfind
    refine ⟨?_, ?_, hmemg⟩
    · simp [Volume.material, hfind, hname]
    · simpa [hname] using hpred

/-- C2 witness: in `stC2` the group `"xmat:fuel"` containing volume 2 is
the material group and `material` is its name with the first four
characters dropped. -/
theorem volume_material_spec_w :
    Volume.material stC2 2 = some (pyDrop "xmat:fuel" 4) :=
  ((volume_material_spec stC2 2 (by decide) (by decide)).2
    (1, { category := some "Group", geomDim := 4, name := some "xmat:fuel",
          gid := 1, contents := {2} })
    "xmat:fuel" (by decide) rfl).1

theorem pyMax_succ_not_mem (s : Finset ℕ) : pyMax s + 1 ∉ s := by
  intro h
  have := le_pyMax h
  omega

theorem usedOf_updateSet (st : MState) (h : ℕ) (f : EntityData → EntityData) (k : Kind) :
    usedOf (updateSet st h f) k = usedOf st k := by
  cases k <;> rfl

theorem usedOf_setUsedOf (st : MState) (k : Kind) (u : Finset ℕ) :
    usedOf (setUsedOf st k u) k = u := by
  cases k <;> rfl

theorem sets_setUsedOf (st : MState) (k : Kind) (u : Finset ℕ) :
    (setUsedOf st k u).sets = st.sets := by
  cases k <;> rfl

theorem usedOf_addMeshset (st : MState) (k : Kind) :
    usedOf (addMeshset st).1 k = usedOf st k := by
  cases k <;> rfl

theorem usedOf_assignIdWrite (st : MState) (k : Kind) (e i : ℕ) :
    usedOf (assignIdWrite st k e i) k = insert i ((usedOf st k).erase (getGid st e)) := by
  rw [assignIdWrite, usedOf_updateSet, usedOf_setUsedOf]

theorem sets_length_assignIdWrite (st : MState) (k : Kind) (e i : ℕ) :
    (assignIdWrite st k e i).sets.length = st.sets.length := by
  rw [assignIdWrite]
  show ((setUsedOf st k _).sets.map _).length = _
  rw [List.length_map, sets_setUsedOf]

theorem setId_result (st : MState) (k : Kind) (e : ℕ) (gid : Option ℕ)
    (hok : ∀ j, gid = some j → j ∉ usedOf st k) :
    ∃ i, i ∉ usedOf st k ∧
      (gid = none → i = pyMax (usedOf st k) + 1) ∧
      (∀ j, gid = some j → i = j) ∧
      GeometrySet.setId st k e gid = (assignIdWrite st k e i, Except.ok i) := by
  cases gid with
  | none =>
    exact ⟨pyMax (usedOf st k) + 1, pyMax_succ_not_mem _, fun _ => rfl,
      fun j hj => Option.noConfusion hj, rfl⟩
  | some j =>
    have hj : j ∉ usedOf st k := hok j rfl
    exact ⟨j, hj, fun hc => Option.noConfusion hc,
      fun j2 hj2 => (Option.some.injEq _ _ ▸ hj2 : _) ▸ rfl,
      by simp [GeometrySet.setId, hj]⟩

theorem geometry_create_result (st : MState) (k : Kind) (gid : Option ℕ)
    (hok : ∀ j, gid = some j → j ∉ usedOf st k) :
    ∃ st4 i, GeometrySet.create st k gid = (st4, Except.ok st.nextHandle) ∧
      i ∉ usedOf st k ∧ i ∈ usedOf st4 k ∧
      st4.sets.length = st.sets.length + 1 := by
  set st3 := updateSet (updateSet (addMeshset st).1 (addMeshset st).2
      (fun d => { d with geomDim := reqDim k })) (addMeshset st).2
      (fun d => { d with category := some (reqCat k) }) with hst3
  have husd3 : usedOf st3 k = usedOf st k := by
    rw [hst3, usedOf_updateSet, usedOf_updateSet, usedOf_addMeshset]
  obtain ⟨i, hi3, -, -, hsetid⟩ := setId_result st3 k (addMeshset st).2 gid
    (by intro j hj; rw [husd3]; exact hok j hj)
  rw [husd3] at hi3
  refine ⟨assignIdWrite st3 k (addMeshset st).2 i, i, ?_, hi3, ?_, ?_⟩
  · simp only [GeometrySet.create]
    rw [← hst3, hsetid]
    rfl
  · rw [usedOf_assignIdWrite, husd3]
    exact Finset.mem_insert_self _ _
  · rw [sets_length_assignIdWrite, hst3]
    show (((addMeshset st).1.sets.map _).map _).length = _
    rw [List.length_map, List.length_map]
    show (st.sets ++ [(st.nextHandle, blankSet)]).length = _
    rw [List.length_append]
    rfl

/-- C8 (amended): `create_surface` with a filename whose extension is not
`.stl` (case-insensitive) does raise the validation error, but only AFTER
the surface entity set has been created and its id recorded: the failed
call leaves the model with one more backend entity set and a changed
per-Surface in-use id set — exactly the state produced by the surface
creation step. -/
theorem create_surface_validation_after_creation (st : MState) (gid : Option ℕ)
    (f : String) (hstl : pyLower (pySuffix f) ≠ ".stl")
    (hok : ∀ j, gid = some j → j ∉ st.usedSurface) :
    (Model.createSurface st gid (some f)).2 =
      Except.error "Only STL files are supported for surface creation." ∧
    (Model.createSurface st gid (some f)).1 =
      (GeometrySet.create st Kind.surface gid).1 ∧
    (Model.createSurface st gid (some f)).1.sets.length = st.sets.length + 1 ∧
    (Model.createSurface st gid (some f)).1.usedSurface ≠ st.usedSurface := by
  obtain ⟨st4, i, hcr, hni, hmem, hlen⟩ :=
    geometry_create_result st Kind.surface gid hok
  have hcs : Model.createSurface st gid (some f) =
      (st4, Except.error "Only STL files are supported for surface creation.") := by
    unfold Model.createSurface
    rw [hcr]
    simp [hstl]
  refine ⟨by rw [hcs], by rw [hcs, hcr], by rw [hcs]; exact hlen, ?_⟩
  rw [hcs]
  intro heq
  apply hni
  show i ∈ st.usedSurface
  rw [← heq]
  exact hmem

/-- C8 witness: on the empty model `stC8`, creating a surface from
`"my_model.step"` fails with the validation error yet leaves one more
entity set behind. -/
theorem create_surface_validation_after_creation_w :
    (Model.createSurface stC8 none (some "my_model.step")).1.sets.length =
      stC8.sets.length + 1 :=
  (create_surface_validation_after_creation stC8 none "my_model.step" (by decide)
    (fun j hj => Option.noConfusion hj)).2.2.1

theorem MState.ext' (a b : MState) (h1 : a.sets = b.sets)
    (h2 : a.nextHandle = b.nextHandle) (h3 : a.usedSurface = b.usedSurface)
    (h4 : a.usedVolume = b.usedVolume) (h5 : a.usedGroup = b.usedGroup) : a = b := by
  cases a
  cases b
  simp_all

theorem map_update_id (l : List (ℕ × EntityData)) (h : ℕ) (f : EntityData → EntityData)
    (hk : ∀ p ∈ l, p.1 ≠ h) :
    l.map (fun p => if p.1 = h then (p.1, f p.2) else p) = l := by
  induction l with
  | nil => rfl
  | cons a t ih =>
    have ha := hk a (List.mem_cons_self _ _)
    simp only [List.map_cons, if_neg ha]
    rw [ih (fun p hp => hk p (List.mem_cons_of_mem _ hp))]

theorem map_update_append_fresh (l : List (ℕ × EntityData)) (h : ℕ) (d : EntityData)
    (f : EntityData → EntityData) (hk : ∀ p ∈ l, p.1 ≠ h) :
    (l ++ [(h, d)]).map (fun p => if p.1 = h then (p.1, f p.2) else p) = l ++ [(h, f d)] := by
  rw [List.map_append, map_update_id l h f hk]
  simp

theorem lookup_append_fresh (st' : MState) (l : List (ℕ × EntityData)) (h : ℕ)
    (d : EntityData) (hsets : st'.sets = l ++ [(h, d)]) (hk : ∀ p ∈ l, p.1 ≠ h) :
    lookupSet st' h = some d := by
  rw [lookupSet, hsets, List.find?_append]
  have h1 : l.find? (fun p => decide (p.1 = h)) = none :=
    List.find?_eq_none.mpr (by intro p hp; simpa using hk p hp)
  rw [h1]
  simp [List.find?]

theorem sets_assignIdWrite (st : MState) (k : Kind) (e i : ℕ) :
    (assignIdWrite st k e i).sets =
      st.sets.map (fun p => if p.1 = e then (p.1, { p.2 with gid := i }) else p) := by
  rw [assignIdWrite]
  show ((setUsedOf st k _).sets.map _) = _
  rw [sets_setUsedOf]

theorem group_createNew_result (st : MState) (n : String) (gid : Option ℕ)
    (hfresh : ∀ p ∈ st.sets, p.1 < st.nextHandle)
    (_hnames : ∀ g ∈ modelGroups st, g.2.name ≠ none)
    (hnm : some (pyLower n) ∉ groupNames st)
    (hok : ∀ j, gid = some j → j ∉ st.usedGroup) :
    ∃ i, (gid = none → i = pyMax st.usedGroup + 1) ∧ (∀ j, gid = some j → i = j) ∧
      Group.createNew st (some n) gid =
        ({ sets := st.sets ++ [(st.nextHandle,
             { category := some "Group", geomDim := 4, name := some n, gid := i,
               contents := ∅ })],
           nextHandle := st.nextHandle + 1,
           usedSurface := st.usedSurface, usedVolume := st.usedVolume,
           usedGroup := insert i (st.usedGroup.erase 0) }, Except.ok st.nextHandle) := by
  have hkeys : ∀ p ∈ st.sets, p.1 ≠ st.nextHandle := fun p hp => Nat.ne_of_lt (hfresh p hp)
  set s2 := updateSet (addMeshset st).1 (addMeshset st).2
      (fun d => { d with category := some "Group" }) with hs2def
  set s3 := updateSet s2 (addMeshset st).2 (fun d => { d with geomDim := 4 }) with hs3def
  have hs2sets : s2.sets = st.sets ++ [(st.nextHandle,
      { category := some "Group", geomDim := -1, name := none, gid := 0,
        contents := ∅ })] := by
    rw [hs2def]
    show ((st.sets ++ [(st.nextHandle, blankSet)]).map _) = _
    exact map_update_append_fresh st.sets (addMeshset st).2 blankSet
      (fun d => { d with category := some "Group" }) hkeys
  have hs3sets : s3.sets = st.sets ++ [(st.nextHandle,
      { category := some "Group", geomDim := 4, name := none, gid := 0,
        contents := ∅ })] := by
    rw [hs3def]
    show (s2.sets.map _) = _
    rw [hs2sets]
    exact map_update_append_fresh st.sets (addMeshset st).2
      { category := some "Group", geomDim := -1, name := none, gid := 0, contents := ∅ }
      (fun d => { d with geomDim := 4 }) hkeys
  have hgn3 : groupNames s3 = groupNames st ++ [some "Group"].map (fun _ => (none : Option String)) := by
    rw [groupNames, modelGroups, hs3sets, List.filter_append, List.map_append]
    rfl
  have hcond3 : some (pyLower n) ∉ groupNames s3 := by
    rw [hgn3]
    simp only [List.map_cons, List.map_nil, List.mem_append, List.mem_singleton]
    rintro (hc | hc)
    · exact hnm hc
    · exact Option.noConfusion hc
  have hsn : Group.setName s3 (addMeshset st).2 n =
      (updateSet s3 (addMeshset st).2 (fun d => { d with name := some n }),
        Except.ok ()) := by
    unfold Group.setName
    rw [if_neg hcond3]
  set s4 := updateSet s3 (addMeshset st).2 (fun d => { d with name := some n }) with hs4def
  have hs4sets : s4.sets = st.sets ++ [(st.nextHandle,
      { category := some "Group", geomDim := 4, name := some n, gid := 0,
        contents := ∅ })] := by
    rw [hs4def]
    show (s3.sets.map _) = _
    rw [hs3sets]
    exact map_update_append_fresh st.sets (addMeshset st).2
      { category := some "Group", geomDim := 4, name := none, gid := 0, contents := ∅ }
      (fun d => { d with name := some n }) hkeys
  have hu4 : usedOf s4 Kind.group = st.usedGroup := by
    rw [hs4def, usedOf_updateSet, hs3def, usedOf_updateSet, hs2def, usedOf_updateSet,
      usedOf_addMeshset]
    rfl
  obtain ⟨i, hi, hiN, hiS, hsetid⟩ := setId_result s4 Kind.group (addMeshset st).2 gid
    (by intro j hj; rw [hu4]; exact hok j hj)
  have hgid4 : getGid s4 (addMeshset st).2 = 0 := by
    show ((lookupSet s4 (addMeshset st).2).map EntityData.gid).getD 0 = 0
    rw [show ((addMeshset st).2 : ℕ) = st.nextHandle from rfl]
    rw [lookup_append_fresh s4 st.sets st.nextHandle _ hs4sets hkeys]
    rfl
  have hfinal : assignIdWrite s4 Kind.group (addMeshset st).2 i =
      { sets := st.sets ++ [(st.nextHandle,
          { category := some "Group", geomDim := 4, name := some n, gid := i,
            contents := ∅ })],
        nextHandle := st.nextHandle + 1,
        usedSurface := st.usedSurface, usedVolume := st.usedVolume,
        usedGroup := insert i (st.usedGroup.erase 0) } := by
    apply MState.ext'
    · rw [sets_assignIdWrite, hs4sets]
      exact map_update_append_fresh st.sets (addMeshset st).2
        { category := some "Group", geomDim := 4, name := some n, gid := 0, contents := ∅ }
        (fun d => { d with gid := i }) hkeys
    · show s4.nextHandle = _
      rw [hs4def, hs3def, hs2def]
      rfl
    · show s4.usedSurface = _
      rw [hs4def, hs3def, hs2def]
      rfl
    · show s4.usedVolume = _
      rw [hs4def, hs3def, hs2def]
      rfl
    · show insert i ((usedOf s4 Kind.group).erase (getGid s4 (addMeshset st).2)) = _
      rw [hu4, hgid4]
  refine ⟨i, ?_, hiS, ?_⟩
  · intro hg
    have := hiN hg
    rw [hu4] at this
    exact this
  · simp only [Group.createNew]
    rw [← hs2def, ← hs3def, hsn]
    show (match GeometrySet.setId s4 Kind.group (addMeshset st).2 gid with
          | (st5, Except.ok _) => (st5, Except.ok (addMeshset st).2)
          | (st5, Except.error e) => (st5, Except.error e)) = _
    rw [hsetid, hfinal]
    rfl

/-- C1 (amended): `Group.create` takes its return-existing branch exactly
when the ASCII-lowercased requested name occurs VERBATIM among the
current group names; in that branch the dict lookup uses the original
name, returning the first group named exactly `name` unchanged (ignoring
`group_id`), and failing with a KeyError-style error when no group bears
the verbatim name.  In every other case — including a requested name that
matches an existing name only up to case — a new entity set is allocated,
tagged with category `"Group"` and geom_dimension 4, given the name and
an id (auto or explicit).  The hypotheses require distinct group names
and every group named: with a pre-existing unnamed group the source's
name-setter scan would see two `None`-named groups and crash inside
`merge` (`None.strip()`), a path outside this model. -/
theorem group_create_spec (st : MState) (n : String) (gid : Option ℕ)
    (hfresh : ∀ p ∈ st.sets, p.1 < st.nextHandle)
    (_hnodup : (groupNames st).Nodup)
    (hnames : ∀ g ∈ modelGroups st, g.2.name ≠ none)
    (hok : ∀ j, gid = some j → j ∉ st.usedGroup) :
    (some (pyLower n) ∈ groupNames st →
      (∀ p, (modelGroups st).find? (fun q => decide (q.2.name = some n)) = some p →
        Group.create st (some n) gid = (st, Except.ok p.1)) ∧
      ((modelGroups st).find? (fun q => decide (q.2.name = some n)) = none →
        Group.create st (some n) gid = (st, Except.error ("KeyError: " ++ n)))) ∧
    (some (pyLower n) ∉ groupNames st →
      ∃ i, (gid = none → i = pyMax st.usedGroup + 1) ∧ (∀ j, gid = some j → i = j) ∧
        Group.create st (some n) gid =
          ({ sets := st.sets ++ [(st.nextHandle,
               { category := some "Group", geomDim := 4, name := some n, gid := i,
                 contents := ∅ })],
             nextHandle := st.nextHandle + 1,
             usedSurface := st.usedSurface, usedVolume := st.usedVolume,
             usedGroup := insert i (st.usedGroup.erase 0) },
            Except.ok st.nextHandle)) := by
  constructor
  · intro hmem
    constructor
    · intro p hp
      simp [Group.create, hmem, hp]
    · intro hp
      simp [Group.create, hmem, hp]
  · intro hnm
    have hres := group_createNew_result st n gid hfresh hnames hnm hok
    simpa [Group.create, hnm] using hres

/-- C1 witness: creating `"Foo"` on `stC1` (where the name `"Foo"` exists
but the lowercasing `"foo"` is not a verbatim name) takes the creation
branch and succeeds with the fresh handle. -/
theorem group_create_spec_w :
    (Group.create stC1 (some "Foo") none).2 = Except.ok stC1.nextHandle := by
  obtain ⟨i, -, -, h3⟩ := (group_create_spec stC1 "Foo" none (by decide) (by decide)
    (by decide) (fun j hj => Option.noConfusion hj)).2 (by decide)
  rw [h3]

end PyDagmc
